import Mathlib

/-!
Verification of src/examples/sample2_implicit_udp_callback.py.

The file shallowly embeds the example program:

* `process` models `MessageProcessor.process` (lines 27-36): the UDP receive
  callback.  A payload is a list of bytes (`List Nat`, each element < 256 in
  the intended use; the properties below do not depend on the bound).  The
  callback checks `data and (data[0] & 0x01)` and, when the test passes,
  calls `send_udp_explicitly(bytes([0xAC]))`.  There is no exception handler
  in the callback, so a `SendError` raised by `send_udp_explicitly`
  propagates out of the invocation; we model the outcome as an `Except`
  value whose success carries the list of datagrams sent.
* `mainRun` models `main` (lines 39-70) as a straight-line translation of
  its control flow, producing the trace of collaborator calls made during
  one run, given an environment saying which collaborator calls fail and
  whether a `KeyboardInterrupt` arrives during the `time.sleep(1)` wait.
-/

/-- Errors that the external collaborator calls of the example can raise,
 following the taxonomy of the run: registration failure, forward-open
 failure, send failure, and failures of the two teardown calls. -/
inductive PyError
  | registrationError
  | connectionError
  | sendError
  | closeError
  | unregisterError
  deriving DecidableEq, Repr

/-- Observable collaborator calls made by the example program, in the order
 the program makes them.  `readCache n` records the foreground loop reading
 the first `n` bytes of `t_o_iodata`; `sleep s` records `time.sleep(s)`. -/
inductive Event
  | setCallback
  | registerSession
  | forwardOpen
  | readCache (n : Nat)
  | sleep (secs : Nat)
  | forwardClose
  | unregisterSession
  deriving DecidableEq, Repr

/-- Model of `MessageProcessor.process` (source lines 27-36).  `sendOk`
 says whether `send_udp_explicitly` succeeds.  The Python test
 `data and (data[0] & 0x01)` is: the payload is non-empty and the first
 byte has a non-zero bitwise AND with 1.  On success the result lists the
 datagrams sent (at most the single acknowledgment `[0xAC]`); `process`
 contains no handler, so a failing send yields `Except.error`. -/
def process (sendOk : Bool) (data : List Nat) : Except PyError (List (List Nat)) :=
  match data with
  | [] => Except.ok []
  | b :: _ =>
    if b &&& 1 ≠ 0 then
      if sendOk then Except.ok [[0xAC]] else Except.error PyError.sendError
    else Except.ok []

/-- Modelled from the spec: the cache write is performed by the UDP receive
 path of `eeip.eipclient`, which is not under src/ (only its caller, the
 example, is).  Per spec section 4.2 a dispatcher invocation writes the
 payload into InputDataCache (overwrite semantics) and then evaluates the
 acknowledgment decision on that payload.  `onDatagram` returns the new
 cache contents together with the outcome of the callback. -/
def onDatagram (sendOk : Bool) (cache payload : List Nat) :
    List Nat × Except PyError (List (List Nat)) :=
  (payload, process sendOk payload)

/-- Claim C1: the acknowledgment decision is exactly the reference policy.
 For every payload with a first byte whose least-significant bit is set,
 processing sends exactly the single-byte datagram 0xAC; for an empty
 payload or one whose first byte has the bit unset, processing sends
 nothing. -/
theorem ack_policy_exact (data : List Nat) :
    (data ≠ [] → data.headI &&& 1 = 1 → process true data = Except.ok [[0xAC]]) ∧
    (data = [] ∨ data.headI &&& 1 = 0 → process true data = Except.ok []) := by
  constructor
  · intro hne h1
    cases data with
    | nil => exact absurd rfl hne
    | cons b t =>
      simp only [List.headI] at h1
      simp [process, h1]
  · intro h
    cases data with
    | nil => simp [process]
    | cons b t =>
      rcases h with h | h
      · exact absurd h (by simp)
      · simp only [List.headI] at h
        simp [process, h]

/-- Witness for C1 at the concrete payloads [0x01] and [0x02]. -/
theorem ack_policy_exact_witness :
    process true [1] = Except.ok [[0xAC]] ∧ process true [2] = Except.ok [] :=
  ⟨(ack_policy_exact [1]).1 (by decide) (by decide),
   (ack_policy_exact [2]).2 (Or.inr (by decide))⟩

/-- Counterexample to claim C5 as stated: when the acknowledgment send
 fails, the dispatcher invocation does not complete normally — at payload
 [0x01] with a failing send, `process` propagates the send error, because
 `MessageProcessor.process` contains no exception handler around
 `send_udp_explicitly`. -/
theorem send_failure_propagates_cx :
    process false [1] = Except.error PyError.sendError := rfl

/-- Claim C5 (amended): for every payload whose processing triggers a send,
 if the send fails then the `SendError` propagates out of the dispatcher
 invocation, since `MessageProcessor.process` does not catch it. -/
theorem send_failure_propagates (data : List Nat)
    (hne : data ≠ []) (h1 : data.headI &&& 1 = 1) :
    process false data = Except.error PyError.sendError := by
  cases data with
  | nil => exact absurd rfl hne
  | cons b t =>
    simp only [List.headI] at h1
    simp [process, h1]

/-- Witness for the amended C5 at the concrete payload [0x03]. -/
theorem send_failure_propagates_witness :
    process false [3] = Except.error PyError.sendError :=
  send_failure_propagates [3] (by decide) (by decide)

/-- Claim C6: a dispatcher invocation overwrites the cache with the payload
 and then evaluates the acknowledgment decision on that same payload, so
 after processing the cache equals the payload; in particular after payload
 [0x01] the cache holds [0x01] and the single datagram [0xAC] was sent. -/
theorem cache_overwrite_then_decide (sendOk : Bool) (cache payload : List Nat) :
    (onDatagram sendOk cache payload).1 = payload ∧
    (onDatagram sendOk cache payload).2 = process sendOk payload ∧
    (onDatagram true cache [1]).1 = [1] ∧
    (onDatagram true cache [1]).2 = Except.ok [[0xAC]] :=
  ⟨rfl, rfl, rfl, rfl⟩

/-- Claim C8: processing the empty payload raises no exception (the Python
 conjunction short-circuits before indexing), performs no send, and is
 treated as Ignore. -/
theorem empty_payload_safe (sendOk : Bool) :
    process sendOk [] = Except.ok [] := rfl

/-- Environment of one run of `main`: which collaborator calls succeed, and
 whether a `KeyboardInterrupt` arrives during the `time.sleep(1)` of loop
 iteration `interruptAt` (an index below 30; a larger index means the loop
 finishes first and no interrupt is delivered). -/
structure Env where
  registerOk : Bool
  forwardOpenOk : Bool
  interruptAt : Option Nat
  forwardCloseOk : Bool
  unregisterOk : Bool

/-- Trace of `n` completed iterations of the foreground loop (source lines
 58-62): each iteration prints `list(eeipclient.t_o_iodata[:8])`, i.e. reads
 the first 8 bytes of the input-data cache, then sleeps one second. -/
def loopIters : Nat → List Event
  | 0 => []
  | n + 1 => loopIters n ++ [Event.readCache 8, Event.sleep 1]

/-- Trace of the foreground loop for a given interruption point: with no
 interrupt all 30 iterations complete; an interrupt at iteration `k < 30`
 lets iterations `0..k-1` complete, then iteration `k` performs its cache
 read and is interrupted during its sleep. -/
def loopEvents : Option Nat → List Event
  | none => loopIters 30
  | some k => if k < 30 then loopIters k ++ [Event.readCache 8] else loopIters 30

/-- Model of `main` (source lines 39-70).  Control flow of the source:
 `set_udp_receive_callback` is called first, then `register_session` (a
 failure propagates, nothing further runs), then `forward_open` — outside
 the try/finally, so a failure propagates without any teardown.  The
 `for i in range(30)` loop runs inside `try`, `KeyboardInterrupt` is
 caught, and the `finally` block calls `forward_close` and then
 `unregister_session`; an exception in `forward_close` propagates at once,
 skipping `unregister_session`. -/
def mainRun (env : Env) : List Event × Except PyError Unit :=
  if env.registerOk then
    if env.forwardOpenOk then
      if env.forwardCloseOk then
        (([Event.setCallback, Event.registerSession, Event.forwardOpen]
            ++ loopEvents env.interruptAt)
          ++ [Event.forwardClose, Event.unregisterSession],
         if env.unregisterOk then Except.ok () else Except.error PyError.unregisterError)
      else
        (([Event.setCallback, Event.registerSession, Event.forwardOpen]
            ++ loopEvents env.interruptAt)
          ++ [Event.forwardClose],
         Except.error PyError.closeError)
    else
      ([Event.setCallback, Event.registerSession, Event.forwardOpen],
       Except.error PyError.connectionError)
  else
    ([Event.setCallback, Event.registerSession],
     Except.error PyError.registrationError)

/-- A run in which every collaborator call succeeds and no interrupt
 arrives. -/
def envAllOk : Env := ⟨true, true, none, true, true⟩

/-- A run in which `forward_open` fails with `ConnectionError` after a
 successful registration. -/
def envConnectFail : Env := ⟨true, false, none, true, true⟩

/-- A run in which `forward_close` raises during teardown. -/
def envCloseFail : Env := ⟨true, true, none, false, true⟩

/-- A run interrupted by `KeyboardInterrupt` during the sleep of loop
 iteration 5, with all collaborator calls succeeding. -/
def envInterrupt : Env := ⟨true, true, some 5, true, true⟩

/-- A run interrupted by `KeyboardInterrupt` during the sleep of loop
 iteration 5 in which `forward_close` then raises during teardown. -/
def envInterruptCloseFail : Env := ⟨true, true, some 5, false, true⟩

theorem mem_loopIters {e : Event} {n : Nat} (h : e ∈ loopIters n) :
    e = Event.readCache 8 ∨ e = Event.sleep 1 := by
  induction n with
  | zero => simp [loopIters] at h
  | succ m ih =>
    simp only [loopIters, List.mem_append, List.mem_cons,
      List.mem_singleton, List.not_mem_nil] at h
    rcases h with h | h | h | h
    · exact ih h
    · exact Or.inl h
    · exact Or.inr h
    · exact absurd h (by simp)

theorem mem_loopEvents {e : Event} {x : Option Nat} (h : e ∈ loopEvents x) :
    e = Event.readCache 8 ∨ e = Event.sleep 1 := by
  cases x with
  | none => exact mem_loopIters h
  | some k =>
    by_cases hk : k < 30
    · simp only [loopEvents, hk, if_true, List.mem_append, List.mem_singleton] at h
      rcases h with h | h
      · exact mem_loopIters h
      · exact Or.inl h
    · simp only [loopEvents, hk, if_false] at h
      exact mem_loopIters h

theorem count_loopEvents_other (x : Option Nat) (e : Event)
    (h1 : e ≠ Event.readCache 8) (h2 : e ≠ Event.sleep 1) :
    (loopEvents x).count e = 0 :=
  List.count_eq_zero.mpr fun hm => (mem_loopEvents hm).elim h1 h2

theorem count_loopIters_read (n : Nat) :
    (loopIters n).count (Event.readCache 8) = n := by
  induction n with
  | zero => rfl
  | succ m ih => simp [loopIters, List.count_append, ih]

theorem count_loopIters_sleep (n : Nat) :
    (loopIters n).count (Event.sleep 1) = n := by
  induction n with
  | zero => rfl
  | succ m ih => simp [loopIters, List.count_append, ih]

theorem count_loopIters_other (n : Nat) (e : Event)
    (h1 : e ≠ Event.readCache 8) (h2 : e ≠ Event.sleep 1) :
    (loopIters n).count e = 0 :=
  List.count_eq_zero.mpr fun hm => (mem_loopIters hm).elim h1 h2

theorem mainRun_trace_ok (env : Env) (hr : env.registerOk = true)
    (ho : env.forwardOpenOk = true) (hc : env.forwardCloseOk = true) :
    (mainRun env).1 =
      ([Event.setCallback, Event.registerSession, Event.forwardOpen]
        ++ loopEvents env.interruptAt)
        ++ [Event.forwardClose, Event.unregisterSession] := by
  simp [mainRun, hr, ho, hc]

theorem mainRun_trace_connectFail (env : Env) (hr : env.registerOk = true)
    (ho : env.forwardOpenOk = false) :
    (mainRun env).1 = [Event.setCallback, Event.registerSession, Event.forwardOpen] ∧
    (mainRun env).2 = Except.error PyError.connectionError := by
  simp [mainRun, hr, ho]

theorem mainRun_trace_closeFail (env : Env) (hr : env.registerOk = true)
    (ho : env.forwardOpenOk = true) (hc : env.forwardCloseOk = false) :
    (mainRun env).1 =
      ([Event.setCallback, Event.registerSession, Event.forwardOpen]
        ++ loopEvents env.interruptAt) ++ [Event.forwardClose] ∧
    (mainRun env).2 = Except.error PyError.closeError := by
  simp [mainRun, hr, ho, hc]

/-- Counterexample to claim C2 as stated: in the run where registration
 succeeds and `forward_open` then fails with ConnectionError, the
 exception propagates out of `main` — the `forward_open` call stands
 outside the try/finally — and `unregister_session` is never invoked. -/
theorem connect_failure_skips_unregister_cx :
    (mainRun envConnectFail).1.count Event.unregisterSession = 0 ∧
    (mainRun envConnectFail).2 = Except.error PyError.connectionError :=
  ⟨rfl, rfl⟩

/-- Claim C2 (amended): `unregister_session` is invoked exactly once on
 every run in which `forward_open` succeeds and `forward_close` returns
 normally, whatever the interruption behavior; but when `forward_open`
 fails with ConnectionError, the exception propagates out of `main` and
 `unregister_session` is never invoked, leaving the session registered. -/
theorem unregister_iff_teardown_reached (env : Env)
    (hr : env.registerOk = true) :
    (env.forwardOpenOk = true → env.forwardCloseOk = true →
      (mainRun env).1.count Event.unregisterSession = 1) ∧
    (env.forwardOpenOk = false →
      (mainRun env).1.count Event.unregisterSession = 0) := by
  constructor
  · intro ho hc
    rw [mainRun_trace_ok env hr ho hc, List.count_append, List.count_append,
      count_loopEvents_other _ _ (by decide) (by decide)]
    rfl
  · intro ho
    rw [(mainRun_trace_connectFail env hr ho).1]
    rfl

/-- Witness for the amended C2 at the all-success run and the
 forward-open-failure run. -/
theorem unregister_iff_teardown_reached_witness :
    (mainRun envAllOk).1.count Event.unregisterSession = 1 ∧
    (mainRun envConnectFail).1.count Event.unregisterSession = 0 :=
  ⟨(unregister_iff_teardown_reached envAllOk rfl).1 rfl rfl,
   (unregister_iff_teardown_reached envConnectFail rfl).2 rfl⟩

/-- Counterexample to claim C3 as stated: in a run whose monitoring wait
 is ended by a KeyboardInterrupt during iteration 5 and whose
 `forward_close` then raises, `forward_close` is invoked but
 `unregister_session` never is — so on this interrupted run it is false
 that close and unregister are each invoked exactly once in order. -/
theorem interrupt_close_failure_cx :
    (mainRun envInterruptCloseFail).1.count Event.forwardClose = 1 ∧
    (mainRun envInterruptCloseFail).1.count Event.unregisterSession = 0 ∧
    (mainRun envInterruptCloseFail).2 = Except.error PyError.closeError :=
  ⟨rfl, rfl, rfl⟩

/-- Claim C3 (amended): when a KeyboardInterrupt ends the monitoring wait
 at an iteration k < 30, then provided `forward_close` returns normally
 the trace ends with `forward_close` immediately followed by
 `unregister_session`, each occurring exactly once; but if
 `forward_close` raises, the error propagates and `unregister_session`
 is never invoked. -/
theorem interrupt_teardown_order (env : Env) (k : Nat)
    (hr : env.registerOk = true) (ho : env.forwardOpenOk = true)
    (hi : env.interruptAt = some k) (hk : k < 30) :
    (env.forwardCloseOk = true →
      (mainRun env).1 =
        ([Event.setCallback, Event.registerSession, Event.forwardOpen]
          ++ (loopIters k ++ [Event.readCache 8]))
          ++ [Event.forwardClose, Event.unregisterSession] ∧
      (mainRun env).1.count Event.forwardClose = 1 ∧
      (mainRun env).1.count Event.unregisterSession = 1) ∧
    (env.forwardCloseOk = false →
      (mainRun env).1.count Event.forwardClose = 1 ∧
      (mainRun env).1.count Event.unregisterSession = 0) := by
  constructor
  · intro hc
    have htr := mainRun_trace_ok env hr ho hc
    rw [hi] at htr
    simp only [loopEvents, if_pos hk] at htr
    refine ⟨htr, ?_, ?_⟩
    · rw [htr, List.count_append, List.count_append, List.count_append,
        count_loopIters_other _ _ (by decide) (by decide)]
      rfl
    · rw [htr, List.count_append, List.count_append, List.count_append,
        count_loopIters_other _ _ (by decide) (by decide)]
      rfl
  · intro hc
    have h := mainRun_trace_closeFail env hr ho hc
    constructor
    · rw [h.1, List.count_append, List.count_append,
        count_loopEvents_other _ _ (by decide) (by decide)]
      rfl
    · rw [h.1, List.count_append, List.count_append,
        count_loopEvents_other _ _ (by decide) (by decide)]
      rfl

/-- Witness for the amended C3 at the run interrupted in iteration 5 with
 successful teardown and at the one whose `forward_close` raises. -/
theorem interrupt_teardown_order_witness :
    ((mainRun envInterrupt).1.count Event.forwardClose = 1 ∧
      (mainRun envInterrupt).1.count Event.unregisterSession = 1) ∧
    ((mainRun envInterruptCloseFail).1.count Event.forwardClose = 1 ∧
      (mainRun envInterruptCloseFail).1.count Event.unregisterSession = 0) :=
  ⟨⟨((interrupt_teardown_order envInterrupt 5 rfl rfl rfl (by decide)).1 rfl).2.1,
    ((interrupt_teardown_order envInterrupt 5 rfl rfl rfl (by decide)).1 rfl).2.2⟩,
   (interrupt_teardown_order envInterruptCloseFail 5 rfl rfl rfl (by decide)).2 rfl⟩

/-- Counterexample to claim C4 as stated: in a run in which
 `forward_close` raises during teardown, `forward_close` is invoked but
 `unregister_session` is never attempted — the exception propagates out
 of the finally block at once, since no handler separates the two calls. -/
theorem close_failure_skips_unregister_cx :
    (mainRun envCloseFail).1.count Event.forwardClose = 1 ∧
    (mainRun envCloseFail).1.count Event.unregisterSession = 0 ∧
    (mainRun envCloseFail).2 = Except.error PyError.closeError :=
  ⟨rfl, rfl, rfl⟩

/-- Claim C4 (amended): the two teardown steps are sequential, not
 independent: `unregister_session` is attempted exactly when
 `forward_close` returns normally; when `forward_close` raises, the error
 propagates and `unregister_session` is not attempted. -/
theorem teardown_sequential (env : Env)
    (hr : env.registerOk = true) (ho : env.forwardOpenOk = true) :
    (env.forwardCloseOk = true →
      (mainRun env).1.count Event.forwardClose = 1 ∧
      (mainRun env).1.count Event.unregisterSession = 1) ∧
    (env.forwardCloseOk = false →
      (mainRun env).1.count Event.forwardClose = 1 ∧
      (mainRun env).1.count Event.unregisterSession = 0 ∧
      (mainRun env).2 = Except.error PyError.closeError) := by
  constructor
  · intro hc
    constructor
    · rw [mainRun_trace_ok env hr ho hc, List.count_append, List.count_append,
        count_loopEvents_other _ _ (by decide) (by decide)]
      rfl
    · rw [mainRun_trace_ok env hr ho hc, List.count_append, List.count_append,
        count_loopEvents_other _ _ (by decide) (by decide)]
      rfl
  · intro hc
    have h := mainRun_trace_closeFail env hr ho hc
    refine ⟨?_, ?_, h.2⟩
    · rw [h.1, List.count_append, List.count_append,
        count_loopEvents_other _ _ (by decide) (by decide)]
      rfl
    · rw [h.1, List.count_append, List.count_append,
        count_loopEvents_other _ _ (by decide) (by decide)]
      rfl

/-- Witness for the amended C4 at the all-success run and the run whose
 `forward_close` raises. -/
theorem teardown_sequential_witness :
    ((mainRun envAllOk).1.count Event.forwardClose = 1 ∧
      (mainRun envAllOk).1.count Event.unregisterSession = 1) ∧
    (mainRun envCloseFail).1.count Event.forwardClose = 1 ∧
    (mainRun envCloseFail).1.count Event.unregisterSession = 0 :=
  ⟨(teardown_sequential envAllOk rfl rfl).1 rfl,
   ((teardown_sequential envCloseFail rfl rfl).2 rfl).1,
   ((teardown_sequential envCloseFail rfl rfl).2 rfl).2.1⟩

/-- Counterexample to claim C7 as stated: in the fully successful run the
 receive callback is installed as the very first lifecycle call — before
 `register_session` and before the connection is established — and never
 again afterwards, refuting that the dispatcher is installed only after
 the connection is established. -/
theorem callback_installed_first_cx :
    (mainRun envAllOk).1.take 3 =
      [Event.setCallback, Event.registerSession, Event.forwardOpen] ∧
    Event.setCallback ∉ (mainRun envAllOk).1.drop 3 := by decide

/-- Claim C7 (amended): the operator entry point installs the receive
 callback first, then performs register, connect, the monitoring wait,
 close and unregister, in that order; the dispatcher is installed before
 the connection is established, not after it. -/
theorem entrypoint_call_order (env : Env)
    (hr : env.registerOk = true) (ho : env.forwardOpenOk = true)
    (hi : env.interruptAt = none) (hc : env.forwardCloseOk = true) :
    (mainRun env).1 =
      ([Event.setCallback, Event.registerSession, Event.forwardOpen]
        ++ loopIters 30) ++ [Event.forwardClose, Event.unregisterSession] := by
  have htr := mainRun_trace_ok env hr ho hc
  rw [hi] at htr
  simp only [loopEvents] at htr
  exact htr

/-- Witness for the amended C7 at the all-success run. -/
theorem entrypoint_call_order_witness :
    (mainRun envAllOk).1 =
      ([Event.setCallback, Event.registerSession, Event.forwardOpen]
        ++ loopIters 30) ++ [Event.forwardClose, Event.unregisterSession] :=
  entrypoint_call_order envAllOk rfl rfl rfl rfl

/-- Claim C9: a KeyboardInterrupt raised during the monitoring wait is
 caught and not re-raised: when the teardown calls return normally, the
 interrupted run completes with a normal return from `main` rather than a
 propagating exception. -/
theorem interrupt_caught (env : Env) (k : Nat)
    (hr : env.registerOk = true) (ho : env.forwardOpenOk = true)
    (hi : env.interruptAt = some k) (hk : k < 30)
    (hc : env.forwardCloseOk = true) (hu : env.unregisterOk = true) :
    (mainRun env).2 = Except.ok () := by
  simp [mainRun, hr, ho, hc, hu]

/-- Witness for C9 at the run interrupted in iteration 5. -/
theorem interrupt_caught_witness :
    (mainRun envInterrupt).2 = Except.ok () :=
  interrupt_caught envInterrupt 5 rfl rfl rfl (by decide) rfl rfl

/-- Claim C10: absent interruption and errors, the foreground loop
 performs exactly 30 iterations — the trace holds exactly 30 reads of the
 first 8 bytes of the input-data cache and exactly 30 one-second waits,
 interleaved read-then-wait — after which control proceeds to the two
 teardown calls. -/
theorem loop_thirty_iterations (env : Env)
    (hr : env.registerOk = true) (ho : env.forwardOpenOk = true)
    (hi : env.interruptAt = none) (hc : env.forwardCloseOk = true) :
    (mainRun env).1 =
      ([Event.setCallback, Event.registerSession, Event.forwardOpen]
        ++ loopIters 30) ++ [Event.forwardClose, Event.unregisterSession] ∧
    (mainRun env).1.count (Event.readCache 8) = 30 ∧
    (mainRun env).1.count (Event.sleep 1) = 30 := by
  have htr := mainRun_trace_ok env hr ho hc
  rw [hi] at htr
  simp only [loopEvents] at htr
  refine ⟨htr, ?_, ?_⟩
  · rw [htr, List.count_append, List.count_append, count_loopIters_read]
    rfl
  · rw [htr, List.count_append, List.count_append, count_loopIters_sleep]
    rfl

/-- Witness for C10 at the all-success run. -/
theorem loop_thirty_iterations_witness :
    (mainRun envAllOk).1.count (Event.readCache 8) = 30 ∧
    (mainRun envAllOk).1.count (Event.sleep 1) = 30 :=
  ⟨(loop_thirty_iterations envAllOk rfl rfl rfl rfl).2.1,
   (loop_thirty_iterations envAllOk rfl rfl rfl rfl).2.2⟩
